import Mathlib

/-!
A verification development for the bank-statement extraction and query
pipeline (`src/extraction.py`, `src/processing.py`, `src/query_engine.py`).

The Python code is shallowly embedded: strings are Lean `String`s, pandas
DataFrames are lists of row structures, currency values are `Rat`, and
datetimes are days since the Unix epoch (`Int`).  Functions that can raise
in Python return `Option`, with `none` standing for an uncaught exception.
External collaborators (the `wordninja` segmenter, the category map from
`config.yml`) are parameters of the embedded functions.
-/

/-! ### Python string primitives

Models of the CPython `str` methods used by the pipeline, restricted to
ASCII (the statement text the pipeline consumes is ASCII).
-/

/-- Python `str.isdigit` (ASCII): nonempty and all characters are digits. -/
def pyIsDigit (s : String) : Bool :=
  !s.data.isEmpty && s.data.all Char.isDigit

/-- Python `str.isalpha` (ASCII): nonempty and all characters are letters. -/
def pyIsAlpha (s : String) : Bool :=
  !s.data.isEmpty && s.data.all Char.isAlpha

/-- Python `str.lower` (ASCII). -/
def pyLower (s : String) : String :=
  String.mk (s.data.map Char.toLower)

/-- Python `str.strip()`: drop whitespace from both ends. -/
def pyStrip (s : String) : String :=
  String.mk (((s.data.dropWhile Char.isWhitespace).reverse.dropWhile
    Char.isWhitespace).reverse)

/-- Helper for `pySplit`: accumulate the current word (reversed) while
scanning the remaining characters. -/
def pySplitAux (cur : List Char) : List Char → List String
  | [] => if cur.isEmpty then [] else [String.mk cur.reverse]
  | c :: cs =>
    if c.isWhitespace then
      if cur.isEmpty then pySplitAux [] cs
      else String.mk cur.reverse :: pySplitAux [] cs
    else pySplitAux (c :: cur) cs

/-- Python `str.split()` with no argument: split on runs of whitespace,
discarding empty fields. -/
def pySplit (s : String) : List String :=
  pySplitAux [] s.data

/-- Whether `pat` occurs at the very start of `l`. -/
def leadsWith : List Char → List Char → Bool
  | [], _ => true
  | _ :: _, [] => false
  | a :: as, b :: bs => a == b && leadsWith as bs

/-- Whether `needle` occurs as a contiguous run somewhere in `hay`. -/
def hasSub (needle : List Char) : List Char → Bool
  | [] => needle.isEmpty
  | c :: t => leadsWith needle (c :: t) || hasSub needle t

/-- Python `needle in hay` on strings: substring containment. -/
def strContains (hay needle : String) : Bool :=
  hasSub needle.data hay.data

/-- Python `str.startswith`. -/
def strStarts (s pre : String) : Bool :=
  leadsWith pre.data s.data

/-- Python `str.title()` (ASCII): uppercase every letter that follows a
non-letter, lowercase the rest. -/
def pyTitle (s : String) : String :=
  String.mk (go false s.data)
where
  go (prevAlpha : Bool) : List Char → List Char
    | [] => []
    | c :: cs =>
      if c.isAlpha then
        (if prevAlpha then c.toLower else c.toUpper) :: go true cs
      else c :: go false cs

/-! ### Calendar arithmetic

Dates are represented as days since 1970-01-01 (the proleptic Gregorian
calendar), using the standard civil-from-days / days-from-civil
conversions written with floor division.
-/

/-- Gregorian leap-year test. -/
def isLeap (y : Int) : Bool :=
  y % 4 == 0 && (y % 100 != 0 || y % 400 == 0)

/-- Number of days in month `m` (1–12) of year `y`. -/
def daysInMonth (y : Int) (m : Nat) : Nat :=
  if m = 2 then (if isLeap y then 29 else 28)
  else if m = 4 ∨ m = 6 ∨ m = 9 ∨ m = 11 then 30
  else 31

/-- Days since 1970-01-01 of the civil date `y-m-d`. -/
def daysFromCivil (y : Int) (m d : Nat) : Int :=
  let y' : Int := if m ≤ 2 then y - 1 else y
  let era : Int := Int.fdiv y' 400
  let yoe : Int := y' - era * 400
  let mp : Int := (Int.ofNat m + 9) % 12
  let doy : Int := Int.fdiv (153 * mp + 2) 5 + Int.ofNat d - 1
  let doe : Int := yoe * 365 + Int.fdiv yoe 4 - Int.fdiv yoe 100 + doy
  era * 146097 + doe - 719468

/-- Civil date `(y, m, d)` of a days-since-epoch value. -/
def civilFromDays (z : Int) : Int × Nat × Nat :=
  let z' := z + 719468
  let era : Int := Int.fdiv z' 146097
  let doe : Int := z' - era * 146097
  let yoe : Int :=
    Int.fdiv (doe - Int.fdiv doe 1460 + Int.fdiv doe 36524 - Int.fdiv doe 146096) 365
  let y : Int := yoe + era * 400
  let doy : Int := doe - (365 * yoe + Int.fdiv yoe 4 - Int.fdiv yoe 100)
  let mp : Int := Int.fdiv (5 * doy + 2) 153
  let d : Int := doy - Int.fdiv (153 * mp + 2) 5 + 1
  let m : Int := if mp < 10 then mp + 3 else mp - 9
  (y + (if m ≤ 2 then 1 else 0), m.toNat, d.toNat)

/-- Calendar year of a days-since-epoch value. -/
def yearOfDays (z : Int) : Int := (civilFromDays z).1

/-- Calendar month (1–12) of a days-since-epoch value. -/
def monthOfDays (z : Int) : Nat := (civilFromDays z).2.1

/-- Day of month of a days-since-epoch value. -/
def dayOfDays (z : Int) : Nat := (civilFromDays z).2.2

/-- Model of a pandas monthly period (`Series.dt.to_period('M')`): the
number of whole months since year 0. -/
def monthPeriodOf (z : Int) : Int :=
  yearOfDays z * 12 + (Int.ofNat (monthOfDays z) - 1)

/-- Model of a pandas weekly period (`Series.dt.to_period('W')`, weeks
ending Sunday): the index of the week containing the date. -/
def weekPeriodOf (z : Int) : Int :=
  Int.fdiv (z + 3) 7

/-- English day names indexed Monday = 0, as produced by
`Series.dt.day_name()`. -/
def dayNames : List String :=
  ["Monday", "Tuesday", "Wednesday", "Thursday", "Friday", "Saturday", "Sunday"]

/-- Day name of a days-since-epoch value (1970-01-01 was a Thursday). -/
def dayNameOf (z : Int) : String :=
  dayNames.getD (Int.emod (z + 3) 7).toNat ""

/-- The recognized three-letter month abbreviations, in calendar order
(`months` in `extraction.py`). -/
def months : List String :=
  ["Jan", "Feb", "Mar", "Apr", "May", "Jun", "Jul", "Aug", "Sep", "Oct", "Nov", "Dec"]

/-- Month number (1–12) of a case-insensitive three-letter abbreviation. -/
def monthFromAbbrev (s : String) : Option Nat :=
  let sl := pyLower s
  (months.findIdx? (fun m => pyLower m == sl)).map (· + 1)

/-- Numeric value of a list of ASCII digit characters. -/
def digitsToNat (l : List Char) : Nat :=
  l.foldl (fun acc c => acc * 10 + (c.toNat - '0'.toNat)) 0

/-- Left-pad the decimal form of `n` with zeros to two digits. -/
def pad2 (n : Nat) : String :=
  if n < 10 then "0" ++ toString n else toString n

/-- Python `strftime('%b %d, %Y')`: e.g. `Mar 02, 2024`.  Years in this pipeline
are four-digit. -/
def strfBdY (y : Int) (m d : Nat) : String :=
  months.getD (m - 1) "" ++ " " ++ pad2 d ++ ", " ++ toString y

/-- Python `strftime('%b %d, %Y')` applied to a days-since-epoch value. -/
def strfDate (z : Int) : String :=
  let c := civilFromDays z
  strfBdY c.1 c.2.1 c.2.2

/--
Model of CPython `strptime` with format `'%b%d%Y'` (as invoked by
`pd.to_datetime(date, format='%b%d%Y')` in `extraction.py`):
a case-insensitive three-letter month abbreviation, a one- or two-digit
day (the `strptime` day pattern admits values 1–31), then exactly four
digits of year, consuming the whole string; the assembled date must be a
valid calendar date or `ValueError` is raised (modelled as `none`).
-/
def parseBdY (s : String) : Option (Int × Nat × Nat) :=
  let cs := s.data
  match cs with
  | c1 :: c2 :: c3 :: rest =>
    match monthFromAbbrev (String.mk [c1, c2, c3]) with
    | none => none
    | some m =>
      let parsed : Option (Nat × List Char) :=
        match rest with
        | d1 :: d2 :: ys =>
          if ys.length == 4 then
            -- two-digit day branch of the strptime regex
            if d1.isDigit && d2.isDigit then
              let v := digitsToNat [d1, d2]
              if 1 ≤ v ∧ v ≤ 31 then some (v, ys) else none
            else none
          else if (d2 :: ys).length == 4 then
            -- one-digit day branch
            if d1.isDigit && d1 != '0' then some (digitsToNat [d1], d2 :: ys)
            else none
          else none
        | _ => none
      match parsed with
      | none => none
      | some (day, ys) =>
        if ys.all Char.isDigit then
          let y : Int := Int.ofNat (digitsToNat ys)
          if 1 ≤ y ∧ day ≤ daysInMonth y m then some (y, m, day) else none
        else none
  | _ => none

/-! ### Extraction (`src/extraction.py`)

`split_concatenated_text` wraps the external `wordninja` word-frequency
segmenter; it is passed as a parameter `seg : String → String` to every
function that uses it.  Functions that can raise in Python return
`Option`, `none` standing for an uncaught exception (`IndexError`).
-/

/-- Constant `DEPOSIT_TRIGGERS` from `extraction.py`. -/
def DEPOSIT_TRIGGERS : List String := ["Deposit", "MB-Transferfrom"]

/-- A raw transaction tuple `[date, description, withdrawal, deposit,
balance]` as built by `extract_transactions_from_page`; `Option` models
Python `None`. -/
structure RawTxn where
  date : String
  description : String
  withdrawal : Option String
  deposit : Option String
  balance : String
deriving DecidableEq, Repr

/-- The transaction-start test: `any(line.startswith(month) for month in
months)`. -/
def isStartLine (line : String) : Bool :=
  months.any (fun m => strStarts line m)

/-- The decimal-token regex `^\d+(\.\d{1,2})?$` from `extraction.py`
line 60 (anchored full match: digits, optionally a point and one or two
digits). -/
def isDecimalToken (s : String) : Bool :=
  match s.data.span Char.isDigit with
  | (ds, rest) =>
    !ds.isEmpty &&
      (rest.isEmpty ||
        (match rest with
         | '.' :: fs => !fs.isEmpty && fs.length ≤ 2 && fs.all Char.isDigit
         | _ => false))

/-- Field parsing of a transaction-start line, from `date = parts[0]`
onward (`extraction.py` lines 44–62), applied to `parts` after the
trailing-tag deletion.  Returns `none` for an `IndexError`, and the
unchanged accumulator when the date parse raises `ValueError` (the
`continue` branch). -/
def parseFields (seg : String → String) (yr : Option String)
    (txns : List RawTxn) (parts : List String) : Option (List RawTxn) :=
  match parts with
  | [] => none  -- date = parts[0]: IndexError
  | date0 :: rest =>
    let dateParsed : Option String :=
      match yr with
      | some y => (parseBdY (date0 ++ y)).map (fun t => strfBdY t.1 t.2.1 t.2.2)
      | none => some date0
    match dateParsed with
    | none => some txns  -- ValueError caught: skip the line
    | some date =>
      let balance := (date0 :: rest).getLastD ""
      match rest with
      | [] => none  -- parts[-2]: IndexError (only one token)
      | _ :: _ =>
        let amt := ((date0 :: rest).dropLast).getLastD ""  -- parts[-2]
        let isDep := DEPOSIT_TRIGGERS.any (fun t => (date0 :: rest).contains t)
        let withdrawal := if isDep then none else some amt
        let deposit := if isDep then some amt else none
        let mid := ((date0 :: rest).drop 1).dropLast.dropLast  -- parts[1:-2]
        let descRaw := " ".intercalate (mid.filter (fun p => !isDecimalToken p))
        some (txns ++ [⟨date, seg descRaw, withdrawal, deposit, balance⟩])

/-- One iteration of the `for line in lines` loop of
`extract_transactions_from_page` (`extraction.py` lines 37–64). -/
def processLine (seg : String → String) (yr : Option String)
    (txns : List RawTxn) (rawLine : String) : Option (List RawTxn) :=
  let line := pyStrip rawLine
  if isStartLine line then
    match pySplit line with
    | [] => none  -- parts[-1]: IndexError (unreachable: start lines are nonempty)
    | p :: ps =>
      let last0 := (p :: ps).getLastD ""
      let parts :=
        if !pyIsDigit last0 && pyIsAlpha last0 then (p :: ps).dropLast
        else p :: ps
      parseFields seg yr txns parts
  else
    match txns.getLast? with
    | none => some txns  -- `elif transactions:` is false: line discarded
    | some t =>
      some (txns.dropLast ++
        [{ t with description := t.description ++ " " ++ seg line }])

/-- Source `extract_transactions_from_page(lines, extracted_year)`: fold the
per-line step over the page's lines, starting from an empty accumulator.
`none` models an uncaught `IndexError`. -/
def extract_transactions_from_page (seg : String → String)
    (lines : List String) (yr : Option String) : Option (List RawTxn) :=
  lines.foldlM (processLine seg yr) []

/-- A dynamically typed DataFrame cell: string, float (`Rat`), datetime
(days since epoch), or missing (`None`/`NaN`/`NaT`). -/
inductive Value where
  | s (v : String)
  | n (v : Rat)
  | d (v : Int)
  | na
deriving DecidableEq, Repr

/-- One row of the transactions DataFrame, with every column
`process_transactions` reads or writes. -/
structure Row where
  date : Value
  description : Value
  withdrawals : Value
  deposits : Value
  balance : Value
  amount : Value
  txnType : Value
  month : Value
  week : Value
  year : Value
  dayOfWeek : Value
  category : Value
deriving DecidableEq, Repr

/-- Parse a Python-float-style literal, as accepted by
`pd.to_numeric`: optional sign, digits with at most one decimal point,
at least one digit (exponents never occur in this pipeline's tokens). -/
def parsePyNumber (s : String) : Option Rat :=
  let cs := s.data
  let (sign, body) : Rat × List Char :=
    match cs with
    | '-' :: t => (-1, t)
    | '+' :: t => (1, t)
    | _ => (1, cs)
  match body.span Char.isDigit with
  | (ip, rest) =>
    match rest with
    | [] => if ip.isEmpty then none else some (sign * digitsToNat ip)
    | '.' :: fp =>
      if fp.all Char.isDigit ∧ ¬(ip.isEmpty ∧ fp.isEmpty) then
        some (sign * ((digitsToNat ip : Rat) +
          (digitsToNat fp : Rat) / ((10 : Rat) ^ fp.length)))
      else none
    | _ => none

/--
Model of `pd.to_numeric(col, errors='coerce')` on one cell: numeric
strings are parsed, numbers pass through, everything else (missing
values, non-numeric strings, and the datetime cells that never occur in
the money columns of this pipeline) coerces to `NaN` (`none`).
-/
def pdToNumeric (v : Value) : Option Rat :=
  match v with
  | .s str => parsePyNumber str
  | .n x => some x
  | .d _ => none
  | .na => none

/--
Model of `pd.to_datetime(col, errors='coerce')` on one cell, for the
string shapes the extractor emits.  `Mon DD, YYYY` strings (produced
when a year was resolved) parse exactly.  A bare year-less month-day
token such as `Mar02` (produced when no year was resolved) does **not**
parse: pandas' format inference declines any format lacking a year, and
the element-wise `dateutil` fallback completes missing fields from its
default `datetime(1, 1, 1)`, producing year-1 dates that lie below
`Timestamp.min` and are coerced to `NaT` under `errors='coerce'`.
Datetimes pass through; everything else is `NaT` (`none`).
-/
def pdToDatetime (v : Value) : Option Int :=
  match v with
  | .d z => some z
  | .s str => parseMonDDYYYY str
  | .n _ => none
  | .na => none
where
  /-- Strict parse of `Mon DD, YYYY` (the extractor's `strftime` output). -/
  parseMonDDYYYY (str : String) : Option Int :=
    match str.data with
    | c1 :: c2 :: c3 :: ' ' :: d1 :: d2 :: ',' :: ' ' :: ys =>
      match monthFromAbbrev (String.mk [c1, c2, c3]) with
      | none => none
      | some m =>
        if d1.isDigit && d2.isDigit && ys.length == 4 && ys.all Char.isDigit then
          let day := digitsToNat [d1, d2]
          let y : Int := Int.ofNat (digitsToNat ys)
          if 1 ≤ day ∧ day ≤ daysInMonth y m then some (daysFromCivil y m day)
          else none
        else none
    | _ => none

/-- The inner loop of `categorize_transaction`: iterate the configured
categories in declared order, returning the first whose keyword list has
a member occurring in the lowered description. -/
def catLoop (descLower : String) : List (String × List String) → String
  | [] => "other"
  | (cat, kws) :: rest =>
    if kws.any (fun kw => strContains descLower kw) then cat
    else catLoop descLower rest

/-- Source `categorize_transaction(description)`: `none` models a missing
(`NaN`) description, for which `pd.isna` short-circuits to `"other"`.
Note the description is lowercased but the keywords are matched
verbatim. -/
def categorize_transaction (cfg : List (String × List String))
    (desc : Option String) : String :=
  match desc with
  | none => "other"
  | some d => catLoop (pyLower d) cfg

/-- The description cell as passed to `categorize_transaction` by
`df['Description'].apply(...)`: missing cells arrive as `NaN`.
(Non-string, non-missing cells would raise in Python on `.lower()`;
they never occur in the Description column of this pipeline.) -/
def descArg (v : Value) : Option String :=
  match v with
  | .s str => some str
  | _ => none

/-- The per-row work of `process_transactions` (`processing.py` lines
25–41): coerce `Date` to datetime and the money columns to numbers
(missing → 0), then compute `Amount`, `Type`, the calendar buckets, and
`Category`. -/
def enrichRow (cfg : List (String × List String)) (r : Row) : Row :=
  let dv := pdToDatetime r.date
  let w := (pdToNumeric r.withdrawals).getD 0
  let dep := (pdToNumeric r.deposits).getD 0
  let bal := (pdToNumeric r.balance).getD 0
  { date := match dv with | some z => .d z | none => .na
    description := r.description
    withdrawals := .n w
    deposits := .n dep
    balance := .n bal
    amount := .n (w + dep)
    txnType := .s (if 0 < dep then "Deposit" else "Withdrawal")
    month := match dv with | some z => .n (monthPeriodOf z) | none => .na
    week := match dv with | some z => .n (weekPeriodOf z) | none => .na
    year := match dv with | some z => .n (yearOfDays z) | none => .na
    dayOfWeek := match dv with | some z => .s (dayNameOf z) | none => .na
    category := .s (categorize_transaction cfg (descArg r.description)) }

/-- A row of the normalized ledger as the query engine reads it. -/
structure QRow where
  qdate : Int
  qdescription : String
  qwithdrawals : Rat
  qdeposits : Rat
  qbalance : Rat
  qamount : Rat
  qcategory : String
deriving DecidableEq, Repr

/-- Sum of the `Withdrawals ($)` column. -/
def sumW (df : List QRow) : Rat :=
  df.foldl (fun acc r => acc + r.qwithdrawals) 0

/-- Sum of the `Deposits ($)` column. -/
def sumD (df : List QRow) : Rat :=
  df.foldl (fun acc r => acc + r.qdeposits) 0

/-- Round a rational to the nearest integer, ties to even (the rounding
used by CPython's fixed-point `format`). -/
def roundHalfEven (q : Rat) : Int :=
  let n := ⌊q⌋
  let f := q - n
  if f < 1/2 then n
  else if 1/2 < f then n + 1
  else if Even n then n else n + 1

/-- Insert thousands separators into a reversed digit string. -/
def group3 : List Char → List Char
  | a :: b :: c :: d :: rest => a :: b :: c :: ',' :: group3 (d :: rest)
  | l => l

/-- Python `"{:,.2f}".format(x)`: two decimals, comma thousands
separators. -/
def fmtMoney (x : Rat) : String :=
  let neg := x < 0
  let cents := (roundHalfEven (|x| * 100)).toNat
  let ip := cents / 100
  let fp := cents % 100
  (if neg then "-" else "") ++
    String.mk (group3 (Nat.repr ip).data.reverse).reverse ++ "." ++ pad2 fp

/-- Python `"{:.1f}".format(x)`: one decimal place. -/
def fmtPct (x : Rat) : String :=
  let neg := x < 0
  let tenths := (roundHalfEven (|x| * 10)).toNat
  (if neg then "-" else "") ++ toString (tenths / 10) ++ "." ++ toString (tenths % 10)

/-- Model of `df.nlargest(n, 'Amount')`: descending by amount, ties kept in
original order (`keep='first'`), first `n` rows. -/
def nlargestAmount (n : Nat) (df : List QRow) : List QRow :=
  (df.mergeSort (fun a b => decide (b.qamount ≤ a.qamount))).take n

/-- Model of `df.nsmallest(n, 'Amount')`: ascending by amount, ties kept in
original order, first `n` rows. -/
def nsmallestAmount (n : Nat) (df : List QRow) : List QRow :=
  (df.mergeSort (fun a b => decide (a.qamount ≤ b.qamount))).take n

/-- Source `_format_total_response`. -/
def formatTotalResponse (df : List QRow) (timePeriod : String)
    (category : Option String) (ql : String) : String :=
  let totalSpent := sumW df
  let totalReceived := sumD df
  let count := df.length
  let header := "💰 **Summary " ++ timePeriod ++
    (match category with | some c => " for " ++ c | none => "") ++ ":**\n\n"
  let body :=
    if strContains ql "spent" || strContains ql "withdrawal" || category.isSome then
      "Total spent: $" ++ fmtMoney totalSpent ++ "\n" ++
      "Number of transactions: " ++ toString count ++ "\n" ++
      (if 0 < count then
        "Average per transaction: $" ++ fmtMoney (totalSpent / count) ++ "\n\n"
      else "")
    else if strContains ql "deposit" || strContains ql "received" then
      "Total received: $" ++ fmtMoney totalReceived ++ "\n" ++
      "Number of transactions: " ++ toString count ++ "\n\n"
    else
      "Total spent: $" ++ fmtMoney totalSpent ++ "\n" ++
      "Total received: $" ++ fmtMoney totalReceived ++ "\n" ++
      "Net: $" ++ fmtMoney (totalReceived - totalSpent) ++ "\n" ++
      "Number of transactions: " ++ toString count ++ "\n\n"
  let top := "**Top transactions:**\n" ++
    String.join ((nlargestAmount 5 df).map (fun r =>
      "• " ++ strfDate r.qdate ++ ": $" ++ fmtMoney r.qamount ++ " at " ++
        r.qdescription ++ "\\n"))  -- the source writes a literal backslash-n here
  header ++ body ++ top

/-- Source `_format_average_response`. -/
def formatAverageResponse (df : List QRow) (timePeriod : String)
    (category : Option String) : String :=
  let avg := sumW df / df.length
  "Average spent " ++ timePeriod ++
    (match category with | some c => " on " ++ c | none => "") ++
    ": $" ++ fmtMoney avg

/-- Source `_format_largest_response`. -/
def formatLargestResponse (df : List QRow) (timePeriod : String) : String :=
  "**Largest transactions " ++ timePeriod ++ ":**\n\n" ++
    String.join ((nlargestAmount 5 df).map (fun r =>
      "• " ++ strfDate r.qdate ++ ": $" ++ fmtMoney r.qamount ++ " at " ++
        r.qdescription ++ "\n"))

/-- Source `_format_smallest_response`. -/
def formatSmallestResponse (df : List QRow) (timePeriod : String) : String :=
  "**Smallest transactions " ++ timePeriod ++ ":**\n\n" ++
    String.join ((nsmallestAmount 5 (df.filter (fun r => 0 < r.qamount))).map
      (fun r =>
        "• " ++ strfDate r.qdate ++ ": $" ++ fmtMoney r.qamount ++ " at " ++
          r.qdescription ++ "\n"))

/-- Source `_format_count_response`. -/
def formatCountResponse (df : List QRow) (timePeriod : String)
    (category : Option String) : String :=
  "You made " ++ toString df.length ++ " transactions " ++ timePeriod ++
    (match category with
     | some c => " in the " ++ c ++ " category"
     | none => "")

/-- String comparison used when pandas `groupby` sorts its keys. -/
def strLe (a b : String) : Bool :=
  a == b || decide (a < b)

/-- Source `_format_breakdown_response`: group withdrawals by category
(`groupby` sorts the keys), then sort the sums descending. -/
def formatBreakdownResponse (df : List QRow) (timePeriod : String) : String :=
  let cats := (df.map (fun r => r.qcategory)).eraseDups.mergeSort strLe
  let pairs := cats.map (fun c =>
    (c, sumW (df.filter (fun r => r.qcategory == c))))
  let sorted := pairs.mergeSort (fun a b => decide (b.2 ≤ a.2))
  let total := sumW df
  "**Category breakdown " ++ timePeriod ++ ":**\n\n" ++
    String.join (sorted.map (fun p =>
      let pct := if 0 < total then p.2 / total * 100 else 0
      "• " ++ pyTitle p.1 ++ ": $" ++ fmtMoney p.2 ++ " (" ++ fmtPct pct ++ "%)\n"))

/-- Source `_format_recent_response`. -/
def formatRecentResponse (df : List QRow) (timePeriod : String)
    (category : Option String) : String :=
  "**Recent transactions " ++ timePeriod ++
    (match category with | some c => " - " ++ c | none => "") ++ ":**\n\n" ++
    String.join ((df.take 10).map (fun r =>
      "• " ++ strfDate r.qdate ++ ": $" ++ fmtMoney r.qamount ++ " at " ++
        r.qdescription ++ " (Balance: $" ++ fmtMoney r.qbalance ++ ")\n"))

/-- The time-filter cascade of `query_structured_data`
(`query_engine.py` lines 21–38): first matching cue wins; returns the
filtered frame and the `time_period` label. -/
def queryTimeFilter (ql : String) (today : Int) (df : List QRow) :
    List QRow × String :=
  if strContains ql "last week" || strContains ql "past week" then
    (df.filter (fun r => decide (today - 7 ≤ r.qdate)), "last week")
  else if strContains ql "last month" || strContains ql "past month" then
    (df.filter (fun r => decide (today - 30 ≤ r.qdate)), "last month")
  else if strContains ql "this month" || strContains ql "current month" then
    (df.filter (fun r => monthOfDays r.qdate == monthOfDays today), "this month")
  else if strContains ql "this year" || strContains ql "current year" then
    (df.filter (fun r => yearOfDays r.qdate == yearOfDays today), "this year")
  else if strContains ql "last year" then
    (df.filter (fun r => yearOfDays r.qdate == yearOfDays today - 1), "last year")
  else (df, "in your records")

/-- The category-filter loop of `query_structured_data`
(`query_engine.py` lines 40–48): the first configured category with a
keyword occurring in the query text filters the frame and breaks. -/
def queryCatFilter (ql : String) (df : List QRow) :
    List (String × List String) → List QRow × Option String
  | [] => (df, none)
  | (cat, kws) :: rest =>
    if kws.any (fun kw => strContains ql kw) then
      (df.filter (fun r => r.qcategory == cat), some cat)
    else queryCatFilter ql df rest

/-- The transaction-type filter of `query_structured_data`
(`query_engine.py` lines 50–54). -/
def queryTypeFilter (ql : String) (df : List QRow) : List QRow :=
  if strContains ql "withdrawal" || strContains ql "spent" || strContains ql "paid" then
    df.filter (fun r => decide (0 < r.qwithdrawals))
  else if strContains ql "deposit" || strContains ql "received" || strContains ql "income" then
    df.filter (fun r => decide (0 < r.qdeposits))
  else df

/-- The fully filtered working subset of `query_structured_data`, after
the time, category, and type stages. -/
def queryFilteredRows (cfg : List (String × List String)) (today : Int)
    (q : String) (df : List QRow) : List QRow :=
  let ql := pyLower q
  let t := queryTimeFilter ql today df
  let c := queryCatFilter ql t.1 cfg
  queryTypeFilter ql c.1

/-- Source `query_structured_data(query, df)`. -/
def query_structured_data (cfg : List (String × List String)) (today : Int)
    (q : String) (df : List QRow) : String :=
  let ql := pyLower q
  let t := queryTimeFilter ql today df
  let c := queryCatFilter ql t.1 cfg
  let filtered := queryTypeFilter ql c.1
  let timePeriod := t.2
  let category := c.2
  if filtered.isEmpty then
    "No transactions found " ++ timePeriod ++
      (match category with | some ct => " for " ++ ct | none => "")
  else if ["total", "sum", "how much", "amount"].any (fun w => strContains ql w) then
    formatTotalResponse filtered timePeriod category ql
  else if strContains ql "average" || strContains ql "mean" then
    formatAverageResponse filtered timePeriod category
  else if strContains ql "largest" || strContains ql "biggest"
      || strContains ql "most expensive" || strContains ql "highest" then
    formatLargestResponse filtered timePeriod
  else if strContains ql "smallest" || strContains ql "lowest" then
    formatSmallestResponse filtered timePeriod
  else if strContains ql "count" || strContains ql "how many"
      || strContains ql "number" then
    formatCountResponse filtered timePeriod category
  else if strContains ql "breakdown" || strContains ql "category"
      || strContains ql "categories" then
    formatBreakdownResponse filtered timePeriod
  else formatRecentResponse filtered timePeriod category

/-! ### Declarative formulations used by the claims

These definitions restate filtering and classification *declaratively*
(per-row predicates, first-match searches), either to characterize the
translated code or to formalize a claim of the specification verbatim so
that it can be compared with the code.
-/

/-- Per-row time predicate equivalent to the time-filter cascade of
`query_structured_data`, cue priority preserved. -/
def timePred (ql : String) (today : Int) (r : QRow) : Bool :=
  if strContains ql "last week" || strContains ql "past week" then
    decide (today - 7 ≤ r.qdate)
  else if strContains ql "last month" || strContains ql "past month" then
    decide (today - 30 ≤ r.qdate)
  else if strContains ql "this month" || strContains ql "current month" then
    monthOfDays r.qdate == monthOfDays today
  else if strContains ql "this year" || strContains ql "current year" then
    yearOfDays r.qdate == yearOfDays today
  else if strContains ql "last year" then
    yearOfDays r.qdate == yearOfDays today - 1
  else true

/-- The `time_period` label produced by the time-filter cascade. -/
def timeLabel (ql : String) : String :=
  if strContains ql "last week" || strContains ql "past week" then "last week"
  else if strContains ql "last month" || strContains ql "past month" then "last month"
  else if strContains ql "this month" || strContains ql "current month" then "this month"
  else if strContains ql "this year" || strContains ql "current year" then "this year"
  else if strContains ql "last year" then "last year"
  else "in your records"

/-- The category inferred from the query text: the first configured
category with a keyword occurring in the query. -/
def inferredCategory (cfg : List (String × List String)) (ql : String) :
    Option String :=
  (cfg.find? (fun ck => ck.2.any (fun kw => strContains ql kw))).map Prod.fst

/-- Per-row category predicate of the inferred category filter. -/
def catPred (cfg : List (String × List String)) (ql : String) (r : QRow) : Bool :=
  match inferredCategory cfg ql with
  | some c => r.qcategory == c
  | none => true

/-- Per-row transaction-type predicate equivalent to the type-filter
cascade of `query_structured_data`. -/
def typePred (ql : String) (r : QRow) : Bool :=
  if strContains ql "withdrawal" || strContains ql "spent" || strContains ql "paid" then
    decide (0 < r.qwithdrawals)
  else if strContains ql "deposit" || strContains ql "received" || strContains ql "income" then
    decide (0 < r.qdeposits)
  else true

/-- Case-insensitive occurrence of a keyword in a description, the
matching relation asserted by the specification for the category
classifier (both sides lowered). -/
def ciOccurs (kw desc : String) : Bool :=
  strContains (pyLower desc) (pyLower kw)

/-- The category classifier exactly as the specification words it:
first category, in declared order, one of whose keywords occurs as a
*case-insensitive* substring of the description; `other` otherwise or
for a missing description. -/
def categorizeSpecCI (cfg : List (String × List String))
    (desc : Option String) : String :=
  match desc with
  | none => "other"
  | some d =>
    ((cfg.find? (fun ck => ck.2.any (fun kw => ciOccurs kw d))).map Prod.fst).getD
      "other"

/-- Declarative first-match description of what the code's classifier
actually computes: keywords are matched verbatim against the *lowered*
description. -/
def categorizeFirstMatch (cfg : List (String × List String))
    (desc : Option String) : String :=
  match desc with
  | none => "other"
  | some d =>
    ((cfg.find? (fun ck =>
        ck.2.any (fun kw => strContains (pyLower d) kw))).map Prod.fst).getD
      "other"

/-! #### Formalized claim statements

Each `claim…Prop` is a verbatim formalization of (a clause of) a claim of
the specification, to be proved or refuted against the translated code.
-/

/-- Claim (functional correctness), the `this/current month` clause: when
a `this month`/`current month` cue matches (and no higher-priority cue
does), the selected rows are those of the current month *and current
year* only. -/
def claimC3ThisMonth : Prop :=
  ∀ (ql : String) (today : Int) (df : List QRow),
    (strContains ql "this month" || strContains ql "current month") = true →
    (strContains ql "last week" || strContains ql "past week") = false →
    (strContains ql "last month" || strContains ql "past month") = false →
    queryTimeFilter ql today df =
      (df.filter (fun r => monthOfDays r.qdate == monthOfDays today
        && yearOfDays r.qdate == yearOfDays today), "this month")

/-- Claim (functional correctness), the worked example: the question
`how much did I spend on groceries last month` (with `groceries`
configured under the category `groceries`) restricts the aggregation set
to `Category == groceries` AND `Date >= now - 30 days` AND
`Withdrawals > 0`. -/
def claimC4Example : Prop :=
  ∀ (today : Int) (df : List QRow),
    queryFilteredRows [("groceries", ["groceries", "grocery"])] today
        "how much did I spend on groceries last month" df =
      df.filter (fun r => decide (today - 30 ≤ r.qdate)
        && r.qcategory == "groceries" && decide (0 < r.qwithdrawals))

/-- Claim (functional correctness): the classifier matches keywords
case-insensitively (and first-match in declared order, default
`other`). -/
def claimC7Prop : Prop :=
  ∀ (cfg : List (String × List String)) (desc : Option String),
    categorize_transaction cfg desc = categorizeSpecCI cfg desc

/-- Claim (functional correctness): on a transaction-start line whose
last whitespace-delimited token is non-numeric, the token is discarded
before field parsing.  "Numeric" is read as the decimal-number shape the
extractor itself recognizes (`^\d+(\.\d{1,2})?$`). -/
def claimC9Prop : Prop :=
  ∀ (seg : String → String) (yr : Option String) (txns : List RawTxn)
    (line : String),
    isStartLine (pyStrip line) = true →
    isDecimalToken ((pySplit (pyStrip line)).getLastD "") = false →
    processLine seg yr txns line =
      parseFields seg yr txns ((pySplit (pyStrip line)).dropLast)

/-! #### Concrete inputs used by counterexamples and witnesses -/

/-- The identity segmenter, standing in for `wordninja` on inputs whose
segmentation is immaterial. -/
def idSeg : String → String := fun s => s

/-- A concrete `today` for the query-engine claims: 2026-03-15. -/
def qToday : Int := daysFromCivil 2026 3 15

/-- A row dated 2023-03-10 — same calendar month, different year. -/
def c3OldRow : QRow :=
  ⟨daysFromCivil 2023 3 10, "Old Shop", 12, 0, 900, 12, "dining"⟩

/-- A groceries *deposit* row dated within the rolling 30-day window. -/
def c4DepositRow : QRow :=
  ⟨daysFromCivil 2026 3 10, "Refund Grocery Mart", 0, 20, 100, 20, "groceries"⟩

/-- A category configuration with a `groceries` category. -/
def groceriesCfg : List (String × List String) :=
  [("groceries", ["groceries", "grocery"])]

/-- An alphabetic character is not a digit. -/
theorem char_alpha_not_digit (c : Char) (h : c.isAlpha = true) : c.isDigit = false := by
  simp only [Char.isAlpha, Char.isUpper, Char.isLower, Char.isDigit,
    Bool.or_eq_true, Bool.and_eq_true, decide_eq_true_eq] at h ⊢
  rw [Bool.and_eq_false_iff]
  right
  simp only [decide_eq_false_iff_not]
  intro hc
  rcases h with ⟨h1, _⟩ | ⟨h1, _⟩
  · exact absurd (UInt32.le_trans h1 hc) (by decide)
  · exact absurd (UInt32.le_trans h1 hc) (by decide)

/-- Python's `isdigit` check on a token that passes `isalpha` is always
false: the deletion condition of `extraction.py` line 41 reduces to the
`isalpha` test alone. -/
theorem pyIsAlpha_not_digit (s : String) (h : pyIsAlpha s = true) :
    pyIsDigit s = false := by
  unfold pyIsAlpha at h
  unfold pyIsDigit
  cases hd : s.data with
  | nil => rw [hd] at h; simp at h
  | cons c cs =>
    rw [hd] at h
    simp only [Bool.and_eq_true, List.all_cons] at h
    have hc : c.isAlpha = true := h.2.1
    simp [char_alpha_not_digit c hc]

/-- The time-filter cascade equals a single filter by the per-row time
predicate, labelled by `timeLabel`. -/
theorem queryTimeFilter_eq (ql : String) (today : Int) (df : List QRow) :
    queryTimeFilter ql today df =
      (df.filter (fun r => timePred ql today r), timeLabel ql) := by
  unfold queryTimeFilter timePred timeLabel
  split_ifs <;> simp [*]

/-- The category-filter loop equals a single filter by the per-row
category predicate, paired with the inferred category. -/
theorem queryCatFilter_eq (ql : String) (df : List QRow)
    (cfg : List (String × List String)) :
    queryCatFilter ql df cfg =
      (df.filter (fun r => catPred cfg ql r), inferredCategory cfg ql) := by
  induction cfg with
  | nil => simp [queryCatFilter, catPred, inferredCategory]
  | cons ck rest ih =>
    obtain ⟨cat, kws⟩ := ck
    by_cases hc : kws.any (fun kw => strContains ql kw) = true
    · have hf : List.find? (fun ck => ck.2.any (fun kw => strContains ql kw))
          ((cat, kws) :: rest) = some (cat, kws) :=
        List.find?_cons_of_pos _ (by simpa using hc)
      simp [queryCatFilter, hc, catPred, inferredCategory, hf]
    · rw [Bool.not_eq_true] at hc
      have hf : List.find? (fun ck => ck.2.any (fun kw => strContains ql kw))
          ((cat, kws) :: rest) =
          List.find? (fun ck => ck.2.any (fun kw => strContains ql kw)) rest :=
        List.find?_cons_of_neg _ (by simpa using hc)
      simp only [queryCatFilter, hc, Bool.false_eq_true, if_false, ih]
      simp [catPred, inferredCategory, hf]

/-- The type-filter cascade equals a single filter by the per-row type
predicate. -/
theorem queryTypeFilter_eq (ql : String) (df : List QRow) :
    queryTypeFilter ql df = df.filter (fun r => typePred ql r) := by
  unfold queryTypeFilter typePred
  split_ifs <;> simp [*]

/-! ### Claim C2 (safety: the lower layers never raise) -/

/-- C2: the line classifier *can* raise.  On a page containing the single
line `Mar` (a bare month token), `parts = ["Mar"]` and the trailing-tag
test deletes the only token (`"Mar"` is non-digit and alphabetic), after
which `date = parts[0]` raises `IndexError` — for any segmenter and any
resolved year, contradicting the claim that the classifier never raises
for malformed input. -/
theorem c2_classifier_raises_on_bare_month_token :
    ∀ (seg : String → String) (yr : Option String),
      extract_transactions_from_page seg ["Mar"] yr = none := by
  intro seg yr
  rfl

/-! ### Claim C7 (category classifier first-match contract) -/

/-- C7 counterexample: the classifier is *not* case-insensitive in the
keyword.  With the single category `food` keyed by the keyword `Milk`
and the description `milk`, the keyword occurs case-insensitively in the
description, yet the code returns `other` because `Milk` is matched
verbatim against the lowered description. -/
theorem c7_case_insensitive_counterexample : ¬ claimC7Prop := by
  intro h
  have hinst := h [("food", ["Milk"])] (some "milk")
  exact absurd hinst (by decide)

/-- C7 (amended): `categorize_transaction` returns the first category, in
the mapping's declared order, one of whose keywords occurs *verbatim* as
a substring of the lowercased description (so matching is
case-insensitive only in the description, not in the keyword), and
`other` when no keyword matches or the description is missing. -/
theorem c7_amended_first_match_lowercase :
    ∀ (cfg : List (String × List String)) (desc : Option String),
      categorize_transaction cfg desc = categorizeFirstMatch cfg desc := by
  intro cfg desc
  cases desc with
  | none => rfl
  | some d =>
    show catLoop (pyLower d) cfg = _
    unfold categorizeFirstMatch
    induction cfg with
    | nil => rfl
    | cons ck rest ih =>
      obtain ⟨cat, kws⟩ := ck
      by_cases hc : kws.any (fun kw => strContains (pyLower d) kw) = true
      · have hf : List.find?
            (fun ck => ck.2.any (fun kw => strContains (pyLower d) kw))
            ((cat, kws) :: rest) = some (cat, kws) :=
          List.find?_cons_of_pos _ (by simpa using hc)
        simp [catLoop, hc, hf]
      · rw [Bool.not_eq_true] at hc
        have hf : List.find?
            (fun ck => ck.2.any (fun kw => strContains (pyLower d) kw))
            ((cat, kws) :: rest) =
            List.find? (fun ck => ck.2.any (fun kw => strContains (pyLower d) kw))
              rest :=
          List.find?_cons_of_neg _ (by simpa using hc)
        simp only [catLoop, hc, Bool.false_eq_true, if_false, hf]
        exact ih

/-! ### Claim C9 (trailing-tag discard on transaction-start lines) -/

/-- C9 counterexample: a last token that is non-numeric but not purely
alphabetic is *kept*.  On the start line `Mar02 Store 45.67 ab-cd` the
last token `ab-cd` matches no numeric shape, yet the code keeps it (it
fails the `isalpha()` test), so it is parsed as the balance instead of
being discarded. -/
theorem c9_nonnumeric_tag_counterexample : ¬ claimC9Prop := by
  intro h
  have hinst := h idSeg (some "2024") [] "Mar02 Store 45.67 ab-cd"
    (by decide) (by decide)
  exact absurd hinst (by decide)

/-- C9 (amended): the trailing token of a transaction-start line is
discarded exactly when it consists entirely of alphabetic characters
(Python `isalpha()`; the accompanying `not isdigit()` test is redundant
because an alphabetic token is never all digits). -/
theorem c9_amended_alpha_tag_discarded (seg : String → String)
    (yr : Option String) (txns : List RawTxn) (line : String)
    (parts : List String)
    (hs : isStartLine (pyStrip line) = true)
    (hp : pySplit (pyStrip line) = parts)
    (ha : pyIsAlpha (parts.getLastD "") = true) :
    processLine seg yr txns line = parseFields seg yr txns parts.dropLast := by
  cases parts with
  | nil => exact absurd ha (by decide)
  | cons p ps =>
    have hd : pyIsDigit ((p :: ps).getLastD "") = false :=
      pyIsAlpha_not_digit _ ha
    rw [List.getLastD_eq_getLast?] at ha hd
    unfold processLine
    simp [hs, hp, ha, hd]

/-- C9 witness: on `Mar02 Store 45.67 1000.00 F` the purely alphabetic
trailing token `F` is discarded before field parsing. -/
theorem c9_amended_witness :
    processLine idSeg (some "2024") []
        "Mar02 Store 45.67 1000.00 F" =
      parseFields idSeg (some "2024") []
        (["Mar02", "Store", "45.67", "1000.00", "F"].dropLast) :=
  c9_amended_alpha_tag_discarded idSeg (some "2024") []
    "Mar02 Store 45.67 1000.00 F" ["Mar02", "Store", "45.67", "1000.00", "F"]
    (by decide) (by decide) (by decide)

/-! ### Claim C10 (page-initial continuation lines are discarded) -/

/-- C10: `extract_transactions_from_page` starts from an empty
accumulator, so a page-initial line that is not a transaction start is
silently discarded: extraction of the page behaves exactly as if the
line were absent.  In particular text continuing a transaction begun on
the previous page is never appended to that transaction. -/
theorem c10_leading_nonstart_discarded (seg : String → String)
    (yr : Option String) (l : String) (lines : List String)
    (h : isStartLine (pyStrip l) = false) :
    extract_transactions_from_page seg (l :: lines) yr =
      extract_transactions_from_page seg lines yr := by
  unfold extract_transactions_from_page
  rw [List.foldlM_cons]
  have hp : processLine seg yr [] l = some [] := by
    unfold processLine
    simp [h]
  rw [hp]
  rfl

/-- C10 witness: an orphan continuation line at the top of a page is
dropped; extraction equals extraction of the rest of the page. -/
theorem c10_witness :
    isStartLine (pyStrip "carried over description text") = false ∧
    extract_transactions_from_page idSeg
        ("carried over description text" :: ["Mar02 Shop 45.67 1000.00"]) none =
      extract_transactions_from_page idSeg ["Mar02 Shop 45.67 1000.00"] none :=
  ⟨by decide,
    c10_leading_nonstart_discarded idSeg none "carried over description text"
      ["Mar02 Shop 45.67 1000.00"] (by decide)⟩

/-! ### Claim C3 (time-window inference) -/

/-- C3 counterexample: the `this/current month` window ignores the year.
With `today` = 2026-03-15, the query `this month` selects a row dated
2023-03-10 (same calendar month of a *different* year), refuting the
claim that only rows of the current month and current year are kept. -/
theorem c3_this_month_ignores_year_counterexample : ¬ claimC3ThisMonth := by
  intro h
  have hinst := h "this month" qToday [c3OldRow] (by decide) (by decide) (by decide)
  exact absurd hinst (by decide)

/-- C3 (amended): the cue cascade and its priority are as claimed, with
two corrections: `last/past week` and `last/past month` are one-sided
windows `Date >= now - 7/30 days` (no upper bound), and `this/current
month` matches the month number only, in any year.  `this/current year`,
`last year`, and the no-cue whole-table case with label `in your
records` are as claimed; only the first matching cue applies. -/
theorem c3_amended_time_window_inference :
    ∀ (ql : String) (today : Int) (df : List QRow),
      queryTimeFilter ql today df =
        (df.filter (fun r => timePred ql today r), timeLabel ql) :=
  queryTimeFilter_eq

/-! ### Claim C4 (filter composition) -/

/-- C4 counterexample: in the worked example `how much did I spend on
groceries last month`, no transaction-type filter is inferred — the type
cues are the substrings `withdrawal`, `spent`, and `paid`, and none of
them occurs in the text (`spend` is not `spent`) — so a groceries
*deposit* row inside the window is selected, refuting the claimed
`Withdrawals > 0` restriction. -/
theorem c4_example_type_filter_counterexample : ¬ claimC4Example := by
  intro h
  have hinst := h qToday [c4DepositRow]
  exact absurd hinst (by decide)

/-- C4 (amended): all *inferred* filters are applied as an intersection —
the filtered subset equals a single filter by the conjunction of the
time, category, and type predicates.  For the worked example the
intersection is `Category == groceries` AND `Date >= now - 30 days`
only, because the text contains none of the type cues
`withdrawal`/`spent`/`paid`. -/
theorem c4_filters_intersect :
    ∀ (cfg : List (String × List String)) (today : Int) (q : String)
      (df : List QRow),
      queryFilteredRows cfg today q df =
        df.filter (fun r => timePred (pyLower q) today r
          && catPred cfg (pyLower q) r && typePred (pyLower q) r) := by
  intro cfg today q df
  simp only [queryFilteredRows, queryTimeFilter_eq, queryCatFilter_eq,
    queryTypeFilter_eq, List.filter_filter]
  exact List.filter_congr (fun r _ => by
    simp [Bool.and_comm, Bool.and_assoc, Bool.and_left_comm])

/-! ### Claim C5 (empty-result short-circuit) -/

/-- C5: when the filtered subset is empty, `query_structured_data`
returns the `No transactions found` message naming the inferred time
window, and the inferred category when there is one, without invoking
any aggregation formatter; being a total function of its inputs it
always returns a string on this path (in particular no division by zero
is reachable). -/
theorem c5_empty_result_message (cfg : List (String × List String))
    (today : Int) (q : String) (df : List QRow)
    (h : queryFilteredRows cfg today q df = []) :
    query_structured_data cfg today q df =
      "No transactions found " ++ timeLabel (pyLower q) ++
        (match inferredCategory cfg (pyLower q) with
         | some c => " for " ++ c
         | none => "") := by
  unfold queryFilteredRows at h
  unfold query_structured_data
  simp only [queryTimeFilter_eq, queryCatFilter_eq] at h ⊢
  rw [h]
  rfl

/-- C5 witness: an empty table with a time cue and a category cue yields
the message naming both. -/
theorem c5_empty_result_message_witness :
    query_structured_data groceriesCfg qToday
        "how much did I spend on groceries last month" [] =
      "No transactions found last month for groceries" :=
  (c5_empty_result_message groceriesCfg qToday
      "how much did I spend on groceries last month" [] (by decide)).trans
    (by decide)

/-! ### Claim C1 (withdrawal/deposit exclusivity) -/

/-- The per-row normalization step is idempotent: a parsed date, coerced
money columns, and recomputed derived columns are fixed points of
`enrichRow`. -/
theorem enrichRow_idem (cfg : List (String × List String)) (r : Row) :
    enrichRow cfg (enrichRow cfg r) = enrichRow cfg r := by
  unfold enrichRow
  cases hdv : pdToDatetime r.date <;>
    simp [hdv, pdToNumeric, pdToDatetime, descArg]

/-! ### Claim C8 (year carry-forward and the no-year document)

The chain of lemmas below shows that in a document where no page yields
a year, every extracted date is a whitespace-free `pySplit` token, which
can never match the `Mon DD, YYYY` shape — the only string shape
`pd.to_datetime(errors='coerce')` accepts from this pipeline — so the
normalizer drops every such row.
-/

